import Mathlib

/-!
Verification of the task-tracking backend (FastAPI + SQLModel).

Shallow embedding of the core request pipeline:
  * `src/api/deps.py`   — JWT identity extraction (`get_current_user_id`);
  * `src/models/task.py`— the `Task` row and request schemas (`TaskCreate`,
    `TaskUpdate`) with their pydantic field constraints;
  * `src/api/tasks.py`  — the endpoint handlers (`create_task`, `list_tasks`,
    `get_task_with_ownership`, `update_task`, `delete_task`, `complete_task`,
    `uncomplete_task`).

Modelling conventions:
  * Timestamps are `Nat` (e.g. microseconds since the epoch).  Every call of
    `datetime.utcnow()` in the source is a separate clock read and becomes a
    separate `now` parameter of the embedded operation, in source order;
    monotonicity of the real clock is expressed as a `≤` hypothesis where a
    theorem needs it.  `create_task` reads the clock twice (once for
    `created_at`, once for `updated_at`); every other mutating handler reads
    it once.
  * The database table is a `Store`: the rows in insertion order plus the
    auto-increment counter.  `SELECT ... WHERE id = x ... first()` is
    `List.find?`; the ORM's mutate-in-place-then-flush is replaced by an
    explicit functional update of the row with the same id.  The SQL
    `ORDER BY created_at DESC` carries no tie-break, so it is realised as a
    stable sort of the table scan (insertion) order.
  * A handler either returns a value or raises an `HTTPException`; the
    embedding returns `Except Err α` together with the resulting store.  An
    exception aborts the request before any flush, so every error path
    returns the store unchanged.
  * Pydantic validation of the request body happens before the handler runs
    and is embedded as a separate schema check (`schemaValidCreate`,
    `schemaValidUpdate`) wrapped around the handler by the `*_endpoint`
    functions.
-/

namespace Todo

/-- Timestamps: `datetime` values, modelled as naturals (microseconds). -/
abbrev Timestamp := Nat

/-- The persisted `task` row (`src/models/task.py`, class `Task`). -/
structure Task where
  id : Nat
  user_id : String
  title : String
  description : Option String
  is_completed : Bool
  created_at : Timestamp
  updated_at : Timestamp
deriving DecidableEq, Repr

/-- The database table: rows in insertion order plus the auto-increment
id counter (`id` is `autoincrement=True` in the migration). -/
structure Store where
  tasks : List Task
  nextId : Nat
deriving DecidableEq, Repr

/-- Error categories produced by the API layer: the custom exceptions of
`src/api/tasks.py` / `src/api/deps.py` plus the pydantic request-body
rejection (HTTP 422) raised by the framework before a handler runs. -/
inductive ErrCode where
  | validation422
  | validationError
  | notFound
  | unauthorized
  | storageFailure
deriving DecidableEq, Repr

/-- Structured details carried by `ValidationError` (offending field and
violated constraint). -/
structure ErrDetails where
  field : String
  constraint : String
deriving DecidableEq, Repr

/-- Outward error value: machine-readable code, human message, optional
structured details. -/
structure Err where
  code : ErrCode
  message : String
  details : Option ErrDetails
deriving DecidableEq, Repr

/-- `ValidationError(message, field, constraint)` of `src/api/tasks.py`. -/
def validationError (message field constraint : String) : Err :=
  ⟨ErrCode.validationError, message, some ⟨field, constraint⟩⟩

/-- `NotFoundError()` of `src/api/tasks.py` with its default message. -/
def notFoundErr : Err :=
  ⟨ErrCode.notFound, "Task not found", none⟩

/-- `AuthenticationError(detail)` of `src/api/deps.py`. -/
def authenticationError (detail : String) : Err :=
  ⟨ErrCode.unauthorized, detail, none⟩

/-- Request-body rejection produced by pydantic before the handler runs. -/
def schemaErr : Err :=
  ⟨ErrCode.validation422, "request body validation failed", none⟩

/-- Persistence-layer failure (e.g. a constraint violation at flush);
surfaced as a generic server error, the transaction is rolled back. -/
def storageErr : Err :=
  ⟨ErrCode.storageFailure, "internal server error", none⟩

instance {ε α : Type} [DecidableEq ε] [DecidableEq α] : DecidableEq (Except ε α) :=
  fun a b =>
    match a, b with
    | Except.ok x, Except.ok y =>
        if h : x = y then isTrue (by rw [h]) else isFalse (by simp [h])
    | Except.error x, Except.error y =>
        if h : x = y then isTrue (by rw [h]) else isFalse (by simp [h])
    | Except.ok _, Except.error _ => isFalse (by simp)
    | Except.error _, Except.ok _ => isFalse (by simp)

/-- Python's `str.strip()`: remove whitespace from both ends of the
string.  Defined structurally over the character list so that concrete
instances evaluate inside the kernel. -/
def pyStrip (s : String) : String :=
  String.mk (((s.data.dropWhile Char.isWhitespace).reverse.dropWhile
    Char.isWhitespace).reverse)

/-- Python's `len` on a string: the number of characters. -/
def pyLen (s : String) : Nat := s.data.length

/-! ### Token verification (`src/api/deps.py`) -/

/-- The decoded JWT payload as far as the dependency inspects it: the
optional `sub` claim (`payload.get("sub")`). -/
structure JWTPayload where
  sub : Option String
deriving DecidableEq, Repr

/-- Outcome of `jose.jwt.decode`: a payload, or a `JWTError` (invalid
signature, expired, malformed). -/
inductive DecodeResult where
  | ok (payload : JWTPayload)
  | jwtError (msg : String)
deriving DecidableEq, Repr

/-- `get_current_user_id` of `src/api/deps.py`, after the decode step:
a `JWTError` becomes a 401; otherwise the `sub` claim is extracted and
only `None` is rejected. -/
def get_current_user_id (d : DecodeResult) : Except Err String :=
  match d with
  | DecodeResult.jwtError e =>
      Except.error (authenticationError ("Invalid token: " ++ e))
  | DecodeResult.ok payload =>
      match payload.sub with
      | none => Except.error (authenticationError "Token missing user identifier")
      | some uid => Except.ok uid

/-! ### Request schemas (`src/models/task.py`) -/

/-- `TaskCreate` body validity: pydantic enforces
`title: str = Field(min_length=1, max_length=200)` on the raw (untrimmed)
title; `description` is unconstrained. -/
def schemaValidCreate (title : String) : Bool :=
  1 ≤ pyLen title && pyLen title ≤ 200

/-- `TaskUpdate` body (`src/models/task.py`): all three fields optional.
`none` = field absent from the payload; `some none` = field explicitly
`null`; `some (some v)` = field set to `v`.  (Pydantic's
`model_dump(exclude_unset=True)` distinguishes absent from null.) -/
structure TaskUpdate where
  title : Option (Option String)
  description : Option (Option String)
  is_completed : Option (Option Bool)
deriving DecidableEq, Repr

/-- The empty PATCH body: no field provided. -/
def emptyUpdate : TaskUpdate := ⟨none, none, none⟩

/-- `TaskUpdate` body validity: pydantic applies `min_length=1,
max_length=200` to a provided string title; explicit `null` and absent
fields pass. -/
def schemaValidUpdate (p : TaskUpdate) : Bool :=
  match p.title with
  | some (some t) => 1 ≤ pyLen t && pyLen t ≤ 200
  | _ => true

/-! ### Handlers (`src/api/tasks.py`) -/

/-- `create_task` handler: explicit title validation (`not title or not
title.strip()`, then `len(title) > 200` on the raw title), then insert a
row with `user_id` from the JWT, `is_completed=False`, and the two
`datetime.utcnow()` reads `nowC` (for `created_at`) and `nowU` (for
`updated_at`).  The title is stored trimmed (`title.strip()`). -/
def create_task (title : String) (description : Option String)
    (user_id : String) (nowC nowU : Timestamp) (s : Store) :
    Except Err Task × Store :=
  if title == "" || pyStrip title == "" then
    (Except.error (validationError "Title is required" "title" "required"), s)
  else if pyLen title > 200 then
    (Except.error (validationError "Title must be 1-200 characters" "title" "length"), s)
  else
    let t : Task :=
      { id := s.nextId
        user_id := user_id
        title := pyStrip title
        description := description
        is_completed := false
        created_at := nowC
        updated_at := nowU }
    (Except.ok t, { tasks := s.tasks ++ [t], nextId := s.nextId + 1 })

/-- The row ordering of `ORDER BY created_at DESC`: no secondary key in
the source query. -/
def taskOrder (a b : Task) : Prop := b.created_at ≤ a.created_at

instance : DecidableRel taskOrder :=
  fun a b => inferInstanceAs (Decidable (b.created_at ≤ a.created_at))

instance : IsTotal Task taskOrder :=
  ⟨fun a b => Nat.le_total b.created_at a.created_at⟩

instance : IsTrans Task taskOrder :=
  ⟨fun _ _ _ hab hbc => le_trans hbc hab⟩

/-- `list_tasks` handler: `SELECT ... WHERE user_id = uid ORDER BY
created_at DESC`.  The query names no tie-break, so it is realised as a
stable sort (by descending `created_at`) of the matching rows in table
order. -/
def list_tasks (user_id : String) (s : Store) : List Task :=
  List.insertionSort taskOrder (s.tasks.filter (fun t => t.user_id == user_id))

/-- `get_task_with_ownership`: raw fetch by id (`first()` over
`WHERE id = task_id`), then `if not task or task.user_id != user_id:
raise NotFoundError("Task not found")` — absent and not-owned collapse
into the same 404. -/
def get_task_with_ownership (task_id : Nat) (user_id : String) (s : Store) :
    Except Err Task :=
  match s.tasks.find? (fun t => t.id == task_id) with
  | none => Except.error notFoundErr
  | some task =>
      if task.user_id != user_id then Except.error notFoundErr
      else Except.ok task

/-- Persisting an in-place ORM mutation: the row with the mutated task's
id is replaced, all other rows untouched. -/
def saveTask (t : Task) (s : Store) : Store :=
  { s with tasks := s.tasks.map (fun u => if u.id == t.id then t else u) }

/-- The `setattr` loop of `update_task` plus
`task.updated_at = datetime.utcnow()` and the flush.  `newTitle = some v`
means the (already validated, trimmed) title is applied.  An
explicitly-null `is_completed` would be flushed into the NOT NULL
`is_completed` column of the migration; the failed flush aborts the
transaction, embedded as a storage error with the store unchanged. -/
def applyUpdate (task : Task) (newTitle : Option String)
    (newDescription : Option (Option String))
    (newCompleted : Option (Option Bool)) (now : Timestamp) (s : Store) :
    Except Err Task × Store :=
  if newCompleted == some none then
    (Except.error storageErr, s)
  else
    let t : Task :=
      { task with
        title := newTitle.getD task.title
        description := newDescription.getD task.description
        is_completed := (newCompleted.getD none).getD task.is_completed
        updated_at := now }
    (Except.ok t, saveTask t s)

/-- `update_task` handler: ownership guard first; empty provided-field
set returns the task as-is with no write; otherwise a provided title is
validated (`not title or not title.strip()`, then `len(title) > 200`) and
stored trimmed, provided fields are applied, and `updated_at` is
rewritten to the clock read `now`. -/
def update_task (task_id : Nat) (p : TaskUpdate) (user_id : String)
    (now : Timestamp) (s : Store) : Except Err Task × Store :=
  match get_task_with_ownership task_id user_id s with
  | Except.error e => (Except.error e, s)
  | Except.ok task =>
    if p.title.isNone && p.description.isNone && p.is_completed.isNone then
      (Except.ok task, s)
    else
      match p.title with
      | some none =>
          (Except.error (validationError "Title is required" "title" "required"), s)
      | some (some t) =>
          if t == "" || pyStrip t == "" then
            (Except.error (validationError "Title is required" "title" "required"), s)
          else if pyLen t > 200 then
            (Except.error (validationError "Title must be 1-200 characters" "title" "length"), s)
          else
            applyUpdate task (some (pyStrip t)) p.description p.is_completed now s
      | none =>
          applyUpdate task none p.description p.is_completed now s

/-- `delete_task` handler: ownership guard, then permanent removal of the
row. -/
def delete_task (task_id : Nat) (user_id : String) (s : Store) :
    Except Err Unit × Store :=
  match get_task_with_ownership task_id user_id s with
  | Except.error e => (Except.error e, s)
  | Except.ok task =>
      (Except.ok (), { s with tasks := s.tasks.filter (fun u => u.id != task.id) })

/-- `complete_task` handler: ownership guard, then unconditionally
`is_completed = True` and a fresh `updated_at`. -/
def complete_task (task_id : Nat) (user_id : String) (now : Timestamp)
    (s : Store) : Except Err Task × Store :=
  match get_task_with_ownership task_id user_id s with
  | Except.error e => (Except.error e, s)
  | Except.ok task =>
      let t := { task with is_completed := true, updated_at := now }
      (Except.ok t, saveTask t s)

/-- `uncomplete_task` handler: ownership guard, then unconditionally
`is_completed = False` and a fresh `updated_at`. -/
def uncomplete_task (task_id : Nat) (user_id : String) (now : Timestamp)
    (s : Store) : Except Err Task × Store :=
  match get_task_with_ownership task_id user_id s with
  | Except.error e => (Except.error e, s)
  | Except.ok task =>
      let t := { task with is_completed := false, updated_at := now }
      (Except.ok t, saveTask t s)

/-! ### Endpoint wrappers: pydantic body validation before the handler -/

/-- POST /tasks as seen by the client: the `TaskCreate` schema check runs
before the handler. -/
def create_endpoint (title : String) (description : Option String)
    (user_id : String) (nowC nowU : Timestamp) (s : Store) :
    Except Err Task × Store :=
  if schemaValidCreate title then create_task title description user_id nowC nowU s
  else (Except.error schemaErr, s)

/-- PATCH /tasks/taskId as seen by the client: the `TaskUpdate` schema
check runs before the handler. -/
def update_endpoint (task_id : Nat) (p : TaskUpdate) (user_id : String)
    (now : Timestamp) (s : Store) : Except Err Task × Store :=
  if schemaValidUpdate p then update_task task_id p user_id now s
  else (Except.error schemaErr, s)

end Todo

namespace Todo

/-! ### Helper lemmas about the ownership guard and the store -/

theorem guard_ok_find {tid : Nat} {uid : String} {s : Store} {t : Task}
    (h : get_task_with_ownership tid uid s = Except.ok t) :
    s.tasks.find? (fun u => u.id == tid) = some t := by
  unfold get_task_with_ownership at h
  cases hf : s.tasks.find? (fun u => u.id == tid) with
  | none => rw [hf] at h; exact absurd h (by simp)
  | some t0 =>
    rw [hf] at h
    by_cases hu : t0.user_id = uid
    · simp [hu] at h; rw [h]
    · simp [bne_iff_ne, hu] at h

theorem guard_ok_user {tid : Nat} {uid : String} {s : Store} {t : Task}
    (h : get_task_with_ownership tid uid s = Except.ok t) :
    t.user_id = uid := by
  unfold get_task_with_ownership at h
  cases hf : s.tasks.find? (fun u => u.id == tid) with
  | none => rw [hf] at h; exact absurd h (by simp)
  | some t0 =>
    rw [hf] at h
    by_cases hu : t0.user_id = uid
    · simp [hu] at h; rw [← h]; exact hu
    · simp [bne_iff_ne, hu] at h

theorem guard_ok_id {tid : Nat} {uid : String} {s : Store} {t : Task}
    (h : get_task_with_ownership tid uid s = Except.ok t) :
    t.id = tid := by
  have hf := guard_ok_find h
  have := List.find?_some hf
  simpa using this

theorem guard_absent {tid : Nat} {uid : String} {s : Store}
    (h : s.tasks.find? (fun u => u.id == tid) = none) :
    get_task_with_ownership tid uid s = Except.error notFoundErr := by
  unfold get_task_with_ownership
  rw [h]

theorem guard_not_owned {tid : Nat} {uid : String} {s : Store} {t : Task}
    (hf : s.tasks.find? (fun u => u.id == tid) = some t)
    (hu : t.user_id ≠ uid) :
    get_task_with_ownership tid uid s = Except.error notFoundErr := by
  unfold get_task_with_ownership
  rw [hf]
  simp [bne_iff_ne, hu]

theorem guard_error_shape {tid : Nat} {uid : String} {s : Store} {e : Err}
    (h : get_task_with_ownership tid uid s = Except.error e) :
    e = notFoundErr := by
  unfold get_task_with_ownership at h
  cases hf : s.tasks.find? (fun u => u.id == tid) with
  | none => rw [hf] at h; simpa using h.symm
  | some t0 =>
    rw [hf] at h
    by_cases hu : t0.user_id = uid
    · simp [hu] at h
    · simp [bne_iff_ne, hu] at h; exact h.symm

end Todo

namespace Todo

/-! ### Concrete data used to instantiate the theorems -/

/-- A task owned by identity "A". -/
def dTaskA : Task := ⟨1, "A", "alpha", none, false, 10, 10⟩

/-- A second, newer task owned by identity "A". -/
def dTaskA2 : Task := ⟨2, "A", "beta", some "d", false, 30, 30⟩

/-- A store holding the two tasks of identity "A". -/
def dStore : Store := ⟨[dTaskA, dTaskA2], 3⟩

/-- Claim C2: for every task id and identity, the ownership guard produces
the identical not-found result (same error value: same category, same
message) both when no task with that id exists and when the task exists
but is owned by someone else; every error the guard produces is exactly
that not-found value, so no distinct forbidden outcome exists. -/
theorem C2_guard_indistinguishability (task_id : Nat) (user_id : String) (s : Store) :
    (s.tasks.find? (fun u => u.id == task_id) = none →
      get_task_with_ownership task_id user_id s = Except.error notFoundErr) ∧
    (∀ t, s.tasks.find? (fun u => u.id == task_id) = some t → t.user_id ≠ user_id →
      get_task_with_ownership task_id user_id s = Except.error notFoundErr) ∧
    (∀ e, get_task_with_ownership task_id user_id s = Except.error e → e = notFoundErr) :=
  ⟨fun h => guard_absent h,
   fun _ hf hu => guard_not_owned hf hu,
   fun _ he => guard_error_shape he⟩

/-- Witness for C2: on the concrete store, identity "B" probing task 1
(owned by "A") and task 99 (absent) gets the same not-found value. -/
theorem C2_guard_indistinguishability_witness :
    get_task_with_ownership 1 "B" dStore = Except.error notFoundErr ∧
    get_task_with_ownership 99 "B" dStore = Except.error notFoundErr :=
  ⟨(C2_guard_indistinguishability 1 "B" dStore).2.1 dTaskA (by decide) (by decide),
   (C2_guard_indistinguishability 99 "B" dStore).1 (by decide)⟩

/-- Counterexample to claim C3: a structurally valid token whose `sub`
claim is present but equal to the empty string is accepted, and the empty
string is returned as the identity — the code only rejects an absent
(`None`) subject claim, not an empty one. -/
theorem C3_counterexample :
    get_current_user_id (DecodeResult.ok ⟨some ""⟩) = Except.ok "" := rfl

/-- Claim C3 as amended: decode failures are rejected as authentication
failures; a payload whose subject claim is absent is rejected; a payload
whose subject claim is present is accepted and its value — even the empty
string — is returned as the identity. -/
theorem C3_subject_extraction :
    (∀ e, get_current_user_id (DecodeResult.jwtError e) =
      Except.error (authenticationError ("Invalid token: " ++ e))) ∧
    (get_current_user_id (DecodeResult.ok ⟨none⟩) =
      Except.error (authenticationError "Token missing user identifier")) ∧
    (∀ sub, get_current_user_id (DecodeResult.ok ⟨some sub⟩) = Except.ok sub) :=
  ⟨fun _ => rfl, rfl, fun _ => rfl⟩

end Todo

namespace Todo

/-! ### Listing: ordering facts (claim C9) -/

/-- Modelled from the spec: the listing order of section 4.3 —
`created_at` descending with ties broken by descending id.  (The spec
itself notes this tie-break is an addition; the source query has none.) -/
def specOrder (a b : Task) : Prop :=
  b.created_at < a.created_at ∨ (b.created_at = a.created_at ∧ b.id ≤ a.id)

instance : DecidableRel specOrder :=
  fun _ _ => inferInstanceAs (Decidable (_ ∨ _))

/-- Modelled from the spec: `listByOwner` of section 4.3, with the
spec's deterministic descending-id tie-break. -/
def listByOwner_spec (user_id : String) (s : Store) : List Task :=
  List.insertionSort specOrder (s.tasks.filter (fun t => t.user_id == user_id))

/-- Two tasks of identity "A" created at the same timestamp. -/
def tie1 : Task := ⟨1, "A", "one", none, false, 10, 10⟩

/-- The second task of the `created_at` tie, with the larger id. -/
def tie2 : Task := ⟨2, "A", "two", none, false, 10, 10⟩

/-- A store holding the two tied tasks, inserted in id order. -/
def tieStore : Store := ⟨[tie1, tie2], 3⟩

/-- Counterexample to claim C9: the source query orders only by
`created_at` descending, with no id tie-break; on two tasks with equal
`created_at` the listing returns them in table (ascending-id) order,
not in the descending-id order the claim demands. -/
theorem C9_counterexample :
    list_tasks "A" tieStore = [tie1, tie2] ∧
    listByOwner_spec "A" tieStore = [tie2, tie1] ∧
    list_tasks "A" tieStore ≠ listByOwner_spec "A" tieStore ∧
    tie1.created_at = tie2.created_at ∧ tie1.id < tie2.id := by decide

/-- Claim C9 as amended: the list operation returns exactly the tasks
owned by the identity (a permutation of the owned rows), ordered by
`created_at` descending; the code specifies no tie-break between equal
`created_at` values (the model realises ties in insertion order); an
owner with no tasks gets the empty sequence, not a failure. -/
theorem C9_list_ordering (user_id : String) (s : Store) :
    List.Perm (list_tasks user_id s)
      (s.tasks.filter (fun t => t.user_id == user_id)) ∧
    List.Sorted taskOrder (list_tasks user_id s) ∧
    (∀ t, t ∈ list_tasks user_id s → t.user_id = user_id) ∧
    ((∀ t, t ∈ s.tasks → t.user_id ≠ user_id) → list_tasks user_id s = []) := by
  refine ⟨List.perm_insertionSort _ _, List.sorted_insertionSort _ _, ?_, ?_⟩
  · intro t ht
    rw [list_tasks, List.mem_insertionSort] at ht
    simpa using (List.mem_filter.mp ht).2
  · intro h
    have hf : s.tasks.filter (fun t => t.user_id == user_id) = [] := by
      rw [List.filter_eq_nil_iff]
      intro t ht
      simpa using h t ht
    rw [list_tasks, hf]
    rfl

/-- Witness for C9 (amended): identity "C" owns nothing in the concrete
store and gets the empty list. -/
theorem C9_list_ordering_witness : list_tasks "C" dStore = [] :=
  (C9_list_ordering "C" dStore).2.2.2 (by decide)

end Todo

namespace Todo

/-! ### Title validation (claim C4) -/

theorem pyStrip_of_len_zero {s : String} (h0 : pyLen s = 0) : pyStrip s = "" := by
  have hd : s.data = [] := List.length_eq_zero.mp h0
  unfold pyStrip
  rw [hd]
  rfl

theorem pyLen_pos_of_strip_ne {s : String} (h : pyStrip s ≠ "") : 1 ≤ pyLen s :=
  Nat.pos_of_ne_zero (fun h0 => h (pyStrip_of_len_zero h0))

theorem create_accepts_iff (title : String) (descr : Option String)
    (uid : String) (nowC nowU : Timestamp) (s : Store) :
    (create_endpoint title descr uid nowC nowU s).1.isOk = true ↔
      (pyStrip title ≠ "" ∧ pyLen title ≤ 200) := by
  unfold create_endpoint create_task schemaValidCreate
  by_cases h1 : pyStrip title = ""
  · simp only [h1, ne_eq, not_true_eq_false, false_and, iff_false,
      Bool.not_eq_true]
    split
    · simp [h1, Except.isOk, Except.toBool]
    · simp [Except.isOk, Except.toBool]
  · by_cases h2 : pyLen title ≤ 200
    · have h3 : 1 ≤ pyLen title := pyLen_pos_of_strip_ne h1
      have h4 : title ≠ "" := fun he => h1 (by rw [he]; rfl)
      simp [h1, h2, h3, h4, Nat.not_lt.mpr h2, Except.isOk, Except.toBool]
    · simp [h1, h2, Nat.lt_of_not_le h2, Except.isOk, Except.toBool]

theorem update_accepts_iff (title : String) (tid : Nat) (uid : String)
    (now : Timestamp) (s : Store) (task : Task)
    (hg : get_task_with_ownership tid uid s = Except.ok task) :
    (update_endpoint tid ⟨some (some title), none, none⟩ uid now s).1.isOk = true ↔
      (pyStrip title ≠ "" ∧ pyLen title ≤ 200) := by
  unfold update_endpoint update_task schemaValidUpdate
  rw [hg]
  by_cases h1 : pyStrip title = ""
  · simp only [h1, ne_eq, not_true_eq_false, false_and, iff_false,
      Bool.not_eq_true]
    split
    · simp [h1, Except.isOk, Except.toBool]
    · simp [Except.isOk, Except.toBool]
  · by_cases h2 : pyLen title ≤ 200
    · have h3 : 1 ≤ pyLen title := pyLen_pos_of_strip_ne h1
      have h4 : title ≠ "" := fun he => h1 (by rw [he]; rfl)
      simp [h1, h2, h3, h4, Nat.not_lt.mpr h2, Except.isOk, applyUpdate,
        Except.toBool]
    · simp [h1, h2, Nat.lt_of_not_le h2, Except.isOk, Except.toBool]

end Todo

namespace Todo

/-- A title of raw length 201 whose trimmed length is 200: a single
leading space followed by two hundred characters. -/
def overTitle : String := " " ++ String.mk (List.replicate 200 'a')

set_option maxRecDepth 10000 in
/-- Counterexample to claim C4: `overTitle` is non-empty and exactly 200
characters after trimming, so the claim says it must be accepted; the
code bounds the raw (untrimmed) length — pydantic `max_length=200` and
the handler's `len(title) > 200` — and rejects it on both create and
update. -/
theorem C4_counterexample :
    pyStrip overTitle ≠ "" ∧ pyLen (pyStrip overTitle) = 200 ∧
    (create_endpoint overTitle none "A" 1 2 ⟨[], 1⟩).1.isOk = false ∧
    (update_endpoint 1 ⟨some (some overTitle), none, none⟩ "A" 50 dStore).1.isOk = false := by
  decide

/-- Claim C4 as amended: on both create and update a supplied title is
accepted if and only if it is non-empty after trimming surrounding
whitespace and its raw (untrimmed) length is at most 200 characters; the
200-character bound is checked before trimming.  Titles of raw length 0,
whitespace-only titles, and titles of raw length 201 are rejected;
titles of raw length 1 and 200 (non-whitespace) are accepted. -/
theorem C4_title_validation (title : String) (descr : Option String)
    (uid : String) (nowC nowU now : Timestamp) (s : Store) :
    ((create_endpoint title descr uid nowC nowU s).1.isOk = true ↔
      (pyStrip title ≠ "" ∧ pyLen title ≤ 200)) ∧
    (∀ tid task, get_task_with_ownership tid uid s = Except.ok task →
      ((update_endpoint tid ⟨some (some title), none, none⟩ uid now s).1.isOk = true ↔
        (pyStrip title ≠ "" ∧ pyLen title ≤ 200))) :=
  ⟨create_accepts_iff title descr uid nowC nowU s,
   fun tid task hg => update_accepts_iff title tid uid now s task hg⟩

/-- Witness for C4 (amended): on the concrete store, the one-character
title "x" is accepted by update and by create, and the whitespace-only
title " " is rejected by create. -/
theorem C4_title_validation_witness :
    (update_endpoint 1 ⟨some (some "x"), none, none⟩ "A" 50 dStore).1.isOk = true ∧
    (create_endpoint "x" none "A" 1 2 dStore).1.isOk = true ∧
    (create_endpoint " " none "A" 1 2 dStore).1.isOk = false :=
  ⟨((C4_title_validation "x" none "A" 1 2 50 dStore).2 1 dTaskA rfl).mpr (by decide),
   (C4_title_validation "x" none "A" 1 2 50 dStore).1.mpr (by decide),
   by
    have h := (C4_title_validation " " none "A" 1 2 50 dStore).1
    cases hok : (create_endpoint " " none "A" 1 2 dStore).1.isOk with
    | true => exact absurd (h.mp hok).1 (by decide)
    | false => rfl⟩

end Todo

namespace Todo

/-! ### Per-operation lemmas feeding the data-isolation claim -/

theorem update_guard_error {tid : Nat} {p : TaskUpdate} {uid : String}
    {now : Timestamp} {s : Store} {e : Err}
    (h : get_task_with_ownership tid uid s = Except.error e) :
    update_task tid p uid now s = (Except.error e, s) := by
  unfold update_task
  rw [h]

theorem delete_guard_error {tid : Nat} {uid : String} {s : Store} {e : Err}
    (h : get_task_with_ownership tid uid s = Except.error e) :
    delete_task tid uid s = (Except.error e, s) := by
  unfold delete_task
  rw [h]

theorem complete_guard_error {tid : Nat} {uid : String} {now : Timestamp}
    {s : Store} {e : Err}
    (h : get_task_with_ownership tid uid s = Except.error e) :
    complete_task tid uid now s = (Except.error e, s) := by
  unfold complete_task
  rw [h]

theorem uncomplete_guard_error {tid : Nat} {uid : String} {now : Timestamp}
    {s : Store} {e : Err}
    (h : get_task_with_ownership tid uid s = Except.error e) :
    uncomplete_task tid uid now s = (Except.error e, s) := by
  unfold uncomplete_task
  rw [h]

theorem applyUpdate_ok_user {task : Task} {nt : Option String}
    {nd : Option (Option String)} {nc : Option (Option Bool)}
    {now : Timestamp} {s : Store} {t : Task}
    (h : (applyUpdate task nt nd nc now s).1 = Except.ok t) :
    t.user_id = task.user_id := by
  unfold applyUpdate at h
  split at h
  · simp at h
  · simp at h; rw [← h]

theorem applyUpdate_ok_updated {task : Task} {nt : Option String}
    {nd : Option (Option String)} {nc : Option (Option Bool)}
    {now : Timestamp} {s : Store} {t : Task}
    (h : (applyUpdate task nt nd nc now s).1 = Except.ok t) :
    t.updated_at = now := by
  unfold applyUpdate at h
  split at h
  · simp at h
  · simp at h; rw [← h]

theorem update_ok_user {tid : Nat} {p : TaskUpdate} {uid : String}
    {now : Timestamp} {s : Store} {t : Task}
    (h : (update_task tid p uid now s).1 = Except.ok t) : t.user_id = uid := by
  unfold update_task at h
  cases hg : get_task_with_ownership tid uid s with
  | error e => rw [hg] at h; simp only [] at h; simp at h
  | ok task =>
    have hu := guard_ok_user hg
    rw [hg] at h
    simp only [] at h
    split at h
    · simp at h; rw [← h]; exact hu
    · split at h
      · simp at h
      · split at h
        · simp at h
        · split at h
          · simp at h
          · exact (applyUpdate_ok_user h).trans hu
      · exact (applyUpdate_ok_user h).trans hu

theorem complete_ok_user {tid : Nat} {uid : String} {now : Timestamp}
    {s : Store} {t : Task}
    (h : (complete_task tid uid now s).1 = Except.ok t) : t.user_id = uid := by
  unfold complete_task at h
  cases hg : get_task_with_ownership tid uid s with
  | error e => rw [hg] at h; simp only [] at h; simp at h
  | ok task =>
    rw [hg] at h
    simp only [] at h
    simp at h
    rw [← h]
    simpa using guard_ok_user hg

theorem uncomplete_ok_user {tid : Nat} {uid : String} {now : Timestamp}
    {s : Store} {t : Task}
    (h : (uncomplete_task tid uid now s).1 = Except.ok t) : t.user_id = uid := by
  unfold uncomplete_task at h
  cases hg : get_task_with_ownership tid uid s with
  | error e => rw [hg] at h; simp only [] at h; simp at h
  | ok task =>
    rw [hg] at h
    simp only [] at h
    simp at h
    rw [← h]
    simpa using guard_ok_user hg

theorem create_ok_user {title : String} {descr : Option String}
    {uid : String} {nowC nowU : Timestamp} {s : Store} {t : Task}
    (h : (create_task title descr uid nowC nowU s).1 = Except.ok t) :
    t.user_id = uid := by
  unfold create_task at h
  split at h
  · simp at h
  · split at h
    · simp at h
    · simp at h; rw [← h]

theorem mem_list_tasks_user {uid : String} {s : Store} {t : Task}
    (h : t ∈ list_tasks uid s) : t.user_id = uid := by
  rw [list_tasks, List.mem_insertionSort] at h
  simpa using (List.mem_filter.mp h).2

end Todo

namespace Todo

/-- Claim C1: data isolation.  Every task returned by list, create,
update, complete or uncomplete invoked with identity X has owner
identifier X; and for identities A ≠ B, any attempt by B to update,
delete, complete or uncomplete a task owned by A yields exactly the
not-found outcome with the store untouched, and A's task never appears
in B's list result. -/
theorem C1_data_isolation :
    (∀ uid s t, t ∈ list_tasks uid s → t.user_id = uid) ∧
    (∀ title descr uid nowC nowU s t,
      (create_task title descr uid nowC nowU s).1 = Except.ok t → t.user_id = uid) ∧
    (∀ tid p uid now s t,
      (update_task tid p uid now s).1 = Except.ok t → t.user_id = uid) ∧
    (∀ tid uid now s t,
      (complete_task tid uid now s).1 = Except.ok t → t.user_id = uid) ∧
    (∀ tid uid now s t,
      (uncomplete_task tid uid now s).1 = Except.ok t → t.user_id = uid) ∧
    (∀ A B tid s t, A ≠ B →
      s.tasks.find? (fun u => u.id == tid) = some t → t.user_id = A →
      (∀ p now, update_task tid p B now s = (Except.error notFoundErr, s)) ∧
      delete_task tid B s = (Except.error notFoundErr, s) ∧
      (∀ now, complete_task tid B now s = (Except.error notFoundErr, s)) ∧
      (∀ now, uncomplete_task tid B now s = (Except.error notFoundErr, s)) ∧
      t ∉ list_tasks B s) := by
  refine ⟨fun uid s t ht => mem_list_tasks_user ht,
    fun _ _ _ _ _ _ _ h => create_ok_user h,
    fun _ _ _ _ _ _ h => update_ok_user h,
    fun _ _ _ _ _ h => complete_ok_user h,
    fun _ _ _ _ _ h => uncomplete_ok_user h,
    fun A B tid s t hAB hf hA => ?_⟩
  have hu : t.user_id ≠ B := by rw [hA]; exact hAB
  have hg := guard_not_owned hf hu
  exact ⟨fun _ _ => update_guard_error hg,
    delete_guard_error hg,
    fun _ => complete_guard_error hg,
    fun _ => uncomplete_guard_error hg,
    fun hmem => hu (mem_list_tasks_user hmem)⟩

/-- Witness for C1: identity "B" attacking task 1 of identity "A" in the
concrete store gets not-found from every mutating operation and never
sees the task in its list. -/
theorem C1_data_isolation_witness :
    update_task 1 emptyUpdate "B" 50 dStore = (Except.error notFoundErr, dStore) ∧
    delete_task 1 "B" dStore = (Except.error notFoundErr, dStore) ∧
    complete_task 1 "B" 50 dStore = (Except.error notFoundErr, dStore) ∧
    uncomplete_task 1 "B" 50 dStore = (Except.error notFoundErr, dStore) ∧
    dTaskA ∉ list_tasks "B" dStore := by
  have h := C1_data_isolation.2.2.2.2.2 "A" "B" 1 dStore dTaskA
    (by decide) (by decide) (by decide)
  exact ⟨h.1 emptyUpdate 50, h.2.1, h.2.2.1 50, h.2.2.2.1 50, h.2.2.2.2⟩

end Todo

namespace Todo

/-! ### Persisting a mutation keeps the row findable (for C8, C5, C10) -/

theorem find?_map_replace {l : List Task} {tid : Nat} {t t2 : Task}
    (hid : t2.id = t.id)
    (h : l.find? (fun u => u.id == tid) = some t) :
    (l.map (fun u => if u.id == t2.id then t2 else u)).find?
      (fun u => u.id == tid) = some t2 := by
  have htid : t.id = tid := by simpa using List.find?_some h
  induction l with
  | nil => simp at h
  | cons a l ih =>
    by_cases hc : a.id = tid
    · rw [List.find?_cons_of_pos _ (by simpa using hc)] at h
      have ha : a = t := by simpa using h
      subst ha
      rw [List.map_cons, if_pos (by simpa using hid.symm)]
      exact List.find?_cons_of_pos _ (by simp [hid, htid])
    · rw [List.find?_cons_of_neg _ (by simpa using hc)] at h
      rw [List.map_cons, if_neg (fun hb => hc (by
        have : a.id = t2.id := by simpa using hb
        rw [this, hid, htid]))]
      rw [List.find?_cons_of_neg _ (by simpa using hc)]
      exact ih h

theorem guard_after_save {tid : Nat} {uid : String} {s : Store} {task t2 : Task}
    (hg : get_task_with_ownership tid uid s = Except.ok task)
    (hid : t2.id = task.id) (huser : t2.user_id = uid) :
    get_task_with_ownership tid uid (saveTask t2 s) = Except.ok t2 := by
  have hf := guard_ok_find hg
  unfold get_task_with_ownership saveTask
  simp only []
  rw [find?_map_replace hid hf]
  simp [huser]

theorem noop_cond_iff (p : TaskUpdate) :
    (p.title.isNone && p.description.isNone && p.is_completed.isNone) = true ↔
      p = emptyUpdate := by
  cases p with
  | mk a b c =>
    simp [emptyUpdate, Option.isNone_iff_eq_none, TaskUpdate.mk.injEq,
      Bool.and_eq_true, and_assoc]

end Todo

namespace Todo

/-- Claim C5: for an owned task, an update with the empty provided-field
set returns the task unchanged with the store untouched and `updated_at`
not rewritten; any update with at least one provided field that succeeds
rewrites `updated_at` to the (later-or-equal) request clock; and the
update that re-provides the task's current values succeeds and rewrites
`updated_at`.  The title hypotheses are the at-rest invariant of stored
titles (stored trimmed, non-empty, within the raw bound). -/
theorem C5_update_noop_policy (tid : Nat) (uid : String) (now : Timestamp)
    (s : Store) (task : Task)
    (hg : get_task_with_ownership tid uid s = Except.ok task)
    (hmono : task.updated_at ≤ now)
    (hstrip : pyStrip task.title = task.title)
    (hne : task.title ≠ "") (hlen : pyLen task.title ≤ 200) :
    update_task tid emptyUpdate uid now s = (Except.ok task, s) ∧
    (∀ p t2, p ≠ emptyUpdate → (update_task tid p uid now s).1 = Except.ok t2 →
      t2.updated_at = now ∧ task.updated_at ≤ t2.updated_at) ∧
    update_task tid ⟨some (some task.title), some task.description,
        some (some task.is_completed)⟩ uid now s =
      (Except.ok { task with updated_at := now },
       saveTask { task with updated_at := now } s) := by
  refine ⟨?_, ?_, ?_⟩
  · unfold update_task
    rw [hg]
    rfl
  · intro p t2 hp hok
    unfold update_task at hok
    rw [hg] at hok
    simp only [] at hok
    split at hok
    · exact absurd ((noop_cond_iff p).mp (by assumption)) hp
    · have ht2 : t2.updated_at = now := by
        split at hok
        · simp at hok
        · split at hok
          · simp at hok
          · split at hok
            · simp at hok
            · exact applyUpdate_ok_updated hok
        · exact applyUpdate_ok_updated hok
      exact ⟨ht2, ht2 ▸ hmono⟩
  · unfold update_task applyUpdate
    rw [hg]
    simp [hstrip, hne, Nat.not_lt.mpr hlen]

/-- Witness for C5: on the concrete store, the empty PATCH body is a
no-op for task 1 and the same-values PATCH body rewrites `updated_at`. -/
theorem C5_update_noop_policy_witness :
    update_task 1 emptyUpdate "A" 50 dStore = (Except.ok dTaskA, dStore) ∧
    update_task 1 ⟨some (some dTaskA.title), some dTaskA.description,
        some (some dTaskA.is_completed)⟩ "A" 50 dStore =
      (Except.ok { dTaskA with updated_at := 50 },
       saveTask { dTaskA with updated_at := 50 } dStore) := by
  have h := C5_update_noop_policy 1 "A" 50 dStore dTaskA rfl (by decide)
    (by decide) (by decide) (by decide)
  exact ⟨h.1, h.2.2⟩

end Todo

namespace Todo

theorem count_list_tasks_append {uid : String} {s : Store} {t : Task} {n : Nat}
    (hwf : ∀ u ∈ s.tasks, u.id < s.nextId) (hid : t.id = s.nextId)
    (huser : t.user_id = uid) :
    List.count t (list_tasks uid ⟨s.tasks ++ [t], n⟩) = 1 := by
  have hnotmem : t ∉ s.tasks := by
    intro hm
    have := hwf _ hm
    rw [hid] at this
    exact Nat.lt_irrefl _ this
  have hnotmemf : t ∉ s.tasks.filter (fun u => u.user_id == uid) :=
    fun hm => hnotmem (List.mem_of_mem_filter hm)
  rw [list_tasks]
  rw [(List.perm_insertionSort taskOrder _).count_eq]
  simp [List.filter_append, List.count_append, huser,
    List.count_eq_zero.mpr hnotmemf]

/-- The task produced by the creation counterexample of C6: the handler
reads the clock once for `created_at` and once again for `updated_at`. -/
def cCreated : Task := ⟨1, "A", "milk", none, false, 0, 1⟩

/-- Counterexample to claim C6: `create_task` samples `datetime.utcnow()`
twice — once for `created_at` and once for `updated_at` — so with the
clock advancing between the two reads the created task has
`created_at ≠ updated_at`, while the claim demands equality. -/
theorem C6_counterexample :
    (create_task "milk" none "A" 0 1 ⟨[], 1⟩).1 = Except.ok cCreated ∧
    cCreated.created_at ≠ cCreated.updated_at :=
  ⟨rfl, by decide⟩

/-- Claim C6 as amended: for every valid input, create produces a task
with `completed = false` and `created_at ≤ updated_at` (the two creation
timestamps are separate clock reads, equal only when the reads coincide),
and an immediately following list for the same identity includes the
created task exactly once. -/
theorem C6_create_postcondition (title : String) (descr : Option String)
    (uid : String) (nowC nowU : Timestamp) (s : Store) (t : Task) (s2 : Store)
    (hwf : ∀ u ∈ s.tasks, u.id < s.nextId)
    (hclock : nowC ≤ nowU)
    (h : create_task title descr uid nowC nowU s = (Except.ok t, s2)) :
    t.is_completed = false ∧ t.created_at ≤ t.updated_at ∧
    List.count t (list_tasks uid s2) = 1 := by
  unfold create_task at h
  split at h
  · simp at h
  · split at h
    · simp at h
    · rw [Prod.mk.injEq] at h
      obtain ⟨h1, h2⟩ := h
      rw [Except.ok.injEq] at h1
      subst h2
      subst h1
      exact ⟨rfl, hclock, count_list_tasks_append hwf rfl rfl⟩

/-- Witness for C6 (amended): creating "milk" for "A" in the concrete
store and listing immediately shows the new task once, not completed. -/
theorem C6_create_postcondition_witness :
    (⟨3, "A", "milk", none, false, 40, 41⟩ : Task).is_completed = false ∧
    (⟨3, "A", "milk", none, false, 40, 41⟩ : Task).created_at ≤
      (⟨3, "A", "milk", none, false, 40, 41⟩ : Task).updated_at ∧
    List.count (⟨3, "A", "milk", none, false, 40, 41⟩ : Task)
      (list_tasks "A" ⟨dStore.tasks ++ [⟨3, "A", "milk", none, false, 40, 41⟩], 4⟩) = 1 :=
  C6_create_postcondition "milk" none "A" 40 41 dStore
    ⟨3, "A", "milk", none, false, 40, 41⟩
    ⟨dStore.tasks ++ [⟨3, "A", "milk", none, false, 40, 41⟩], 4⟩
    (by decide) (by decide) (by decide)

end Todo

namespace Todo

/-- An invalid provided title in a PATCH body: explicit null, or a string
that is empty / whitespace-only after trimming, or over 200 characters. -/
def titleBad : Option String → Prop
  | none => True
  | some str => pyStrip str = "" ∨ 200 < pyLen str

/-- Claim C7: for an owned task, any update payload containing an invalid
title — even one that also carries valid fields — is rejected whole with
a validation failure and the store (hence the task, including its
`updated_at`) is unchanged: validation runs before any field is applied. -/
theorem C7_update_atomic_on_invalid_title (tid : Nat) (uid : String)
    (now : Timestamp) (s : Store) (task : Task) (p : TaskUpdate)
    (tOpt : Option String)
    (hg : get_task_with_ownership tid uid s = Except.ok task)
    (hp : p.title = some tOpt) (hbad : titleBad tOpt) :
    ∃ e, update_task tid p uid now s = (Except.error e, s) ∧
      e.code = ErrCode.validationError := by
  unfold update_task
  rw [hg, hp]
  simp only []
  cases tOpt with
  | none =>
      refine ⟨validationError "Title is required" "title" "required", ?_, rfl⟩
      simp
  | some str =>
      have hbad' : pyStrip str = "" ∨ 200 < pyLen str := hbad
      by_cases hs : pyStrip str = ""
      · refine ⟨validationError "Title is required" "title" "required", ?_, rfl⟩
        simp [hs]
      · have hlen : 200 < pyLen str := by
          rcases hbad' with hb | hb
          · exact absurd hb hs
          · exact hb
        have hne : str ≠ "" := fun he => hs (by rw [he]; rfl)
        refine ⟨validationError "Title must be 1-200 characters" "title" "length", ?_, rfl⟩
        simp [hs, hne, hlen]

/-- Witness for C7: a mixed payload (whitespace-only title plus a valid
description and completion flag) on owned task 1 is rejected whole, the
store untouched. -/
theorem C7_update_atomic_on_invalid_title_witness :
    ∃ e, update_task 1 ⟨some (some " "), some (some "newd"), some (some true)⟩
        "A" 50 dStore = (Except.error e, dStore) ∧
      e.code = ErrCode.validationError :=
  C7_update_atomic_on_invalid_title 1 "A" 50 dStore dTaskA
    ⟨some (some " "), some (some "newd"), some (some true)⟩ (some " ")
    rfl rfl (Or.inl (by decide))

/-- Claim C8: for an owned task, complete unconditionally sets the flag
true and uncomplete sets it false, each rewriting `updated_at`; each
succeeds regardless of the task's prior state — completing an
already-completed task succeeds again with a refreshed `updated_at`
(conjunct 2), uncomplete succeeds on a task in an arbitrary prior state
including already-incomplete (conjunct 4, applied to the original
store), and uncompleting an already-uncompleted task succeeds again
(conjunct 5) — and complete followed by uncomplete leaves
`completed = false`. -/
theorem C8_completion_toggle (tid : Nat) (uid : String)
    (n1 n2 n3 n4 n5 : Timestamp) (s : Store) (task : Task)
    (hg : get_task_with_ownership tid uid s = Except.ok task) :
    ∃ s1, complete_task tid uid n1 s =
        (Except.ok { task with is_completed := true, updated_at := n1 }, s1) ∧
      complete_task tid uid n3 s1 =
        (Except.ok { task with is_completed := true, updated_at := n3 },
         saveTask { task with is_completed := true, updated_at := n3 } s1) ∧
      uncomplete_task tid uid n2 s1 =
        (Except.ok { task with is_completed := false, updated_at := n2 },
         saveTask { task with is_completed := false, updated_at := n2 } s1) ∧
      uncomplete_task tid uid n4 s =
        (Except.ok { task with is_completed := false, updated_at := n4 },
         saveTask { task with is_completed := false, updated_at := n4 } s) ∧
      uncomplete_task tid uid n5
          (saveTask { task with is_completed := false, updated_at := n2 }
            s1) =
        (Except.ok { task with is_completed := false, updated_at := n5 },
         saveTask { task with is_completed := false, updated_at := n5 }
           (saveTask { task with is_completed := false, updated_at := n2 }
             s1)) ∧
      Task.is_completed { task with is_completed := false, updated_at := n2 } = false := by
  have huser := guard_ok_user hg
  have hg1 : get_task_with_ownership tid uid
      (saveTask { task with is_completed := true, updated_at := n1 } s) =
      Except.ok { task with is_completed := true, updated_at := n1 } :=
    guard_after_save hg rfl huser
  have hg2 : get_task_with_ownership tid uid
      (saveTask { task with is_completed := false, updated_at := n2 }
        (saveTask { task with is_completed := true, updated_at := n1 } s)) =
      Except.ok { task with is_completed := false, updated_at := n2 } :=
    guard_after_save hg1 rfl huser
  refine ⟨saveTask { task with is_completed := true, updated_at := n1 } s,
    ?_, ?_, ?_, ?_, ?_, rfl⟩
  · unfold complete_task
    rw [hg]
  · unfold complete_task
    rw [hg1]
  · unfold uncomplete_task
    rw [hg1]
  · unfold uncomplete_task
    rw [hg]
  · unfold uncomplete_task
    rw [hg2]

/-- Witness for C8: the toggle sequence on task 1 of the concrete store;
`dTaskA` starts with `is_completed = false`, so the direct uncomplete
conjunct is an uncomplete on an already-incomplete task. -/
theorem C8_completion_toggle_witness :
    ∃ s1, complete_task 1 "A" 50 dStore =
        (Except.ok { dTaskA with is_completed := true, updated_at := 50 }, s1) ∧
      complete_task 1 "A" 52 s1 =
        (Except.ok { dTaskA with is_completed := true, updated_at := 52 },
         saveTask { dTaskA with is_completed := true, updated_at := 52 } s1) ∧
      uncomplete_task 1 "A" 51 s1 =
        (Except.ok { dTaskA with is_completed := false, updated_at := 51 },
         saveTask { dTaskA with is_completed := false, updated_at := 51 } s1) ∧
      uncomplete_task 1 "A" 53 dStore =
        (Except.ok { dTaskA with is_completed := false, updated_at := 53 },
         saveTask { dTaskA with is_completed := false, updated_at := 53 } dStore) ∧
      uncomplete_task 1 "A" 54
          (saveTask { dTaskA with is_completed := false, updated_at := 51 }
            s1) =
        (Except.ok { dTaskA with is_completed := false, updated_at := 54 },
         saveTask { dTaskA with is_completed := false, updated_at := 54 }
           (saveTask { dTaskA with is_completed := false, updated_at := 51 }
             s1)) ∧
      Task.is_completed { dTaskA with is_completed := false, updated_at := 51 } = false :=
  C8_completion_toggle 1 "A" 50 51 52 53 54 dStore dTaskA rfl

/-- Claim C10: the update distinguishes an omitted field from an explicit
null — a payload whose only entry is a null description is a non-empty
field set that clears the description and rewrites `updated_at` (not a
no-op, and the omitted title and completion flag are untouched), while an
explicit null title is rejected as a validation failure. -/
theorem C10_null_field_semantics (tid : Nat) (uid : String) (now : Timestamp)
    (s : Store) (task : Task)
    (hg : get_task_with_ownership tid uid s = Except.ok task) :
    update_task tid ⟨none, some none, none⟩ uid now s =
      (Except.ok { task with description := none, updated_at := now },
       saveTask { task with description := none, updated_at := now } s) ∧
    update_task tid ⟨some none, none, none⟩ uid now s =
      (Except.error (validationError "Title is required" "title" "required"), s) := by
  constructor
  · unfold update_task
    rw [hg]
    rfl
  · unfold update_task
    rw [hg]
    rfl

/-- Witness for C10: a null-description-only PATCH on task 1 clears the
description and stamps `updated_at`; a null-title PATCH fails validation. -/
theorem C10_null_field_semantics_witness :
    update_task 1 ⟨none, some none, none⟩ "A" 50 dStore =
      (Except.ok { dTaskA with description := none, updated_at := 50 },
       saveTask { dTaskA with description := none, updated_at := 50 } dStore) ∧
    update_task 1 ⟨some none, none, none⟩ "A" 50 dStore =
      (Except.error (validationError "Title is required" "title" "required"), dStore) :=
  C10_null_field_semantics 1 "A" 50 dStore dTaskA rfl

end Todo
